import Mathlib

/-!
# Verification of the Complix GST application core

Shallow embedding of `src/Complix/app.py` (the `GSTCalculator` and
`InvoiceManager` classes, the `get_ai_insights` function, and the
report computations of `main`), together with theorems settling the
specification claims about them.

Python decimal amounts are modelled as exact rationals (`ℚ`); Python
dictionaries as ordered association lists with Python `dict` update
semantics; Python object aliasing (lists and dicts are mutable heap
objects passed by reference) as explicit heaps indexed by natural-number
references.
-/

set_option autoImplicit false

namespace Complix

/-! ## Definitions: GSTCalculator (app.py lines 36-53) -/

/-- The result dictionary returned by `GSTCalculator.calculate_gst`
(app.py lines 49-53). -/
structure GSTResult where
  base_amount : ℚ
  gst_amount : ℚ
  total_amount : ℚ
  deriving DecidableEq

/-- The rate table `self.gst_rates` built in `GSTCalculator.__init__`
(app.py lines 38-44): rate labels mapped to fractional rates. -/
def gst_rates : List (String × ℚ) :=
  [("0%", 0.00), ("5%", 0.05), ("12%", 0.12), ("18%", 0.18), ("28%", 0.28)]

/-- Embeds `GSTCalculator.calculate_gst` (app.py lines 46-53).
`self.gst_rates[rate]` is a Python dict lookup that raises `KeyError`
when the label is absent; the raised exception is modelled as `none`.
No other check is performed: in particular the sign of `base_amount` is
never inspected. -/
def calculate_gst (base_amount : ℚ) (rate : String) : Option GSTResult :=
  match gst_rates.lookup rate with
  | none => none
  | some r =>
    let gst_amount := base_amount * r
    let total_amount := base_amount + gst_amount
    some { base_amount := base_amount
           gst_amount := gst_amount
           total_amount := total_amount }

/-- The rate labels paired with the percentages the spec enumerates. -/
def ratePercents : List (String × ℚ) :=
  [("0%", 0), ("5%", 5), ("12%", 12), ("18%", 18), ("28%", 28)]

/-! ## Definitions: a small Python object model

`InvoiceManager` stores Python dicts in a Python list; both are mutable
heap objects handled by reference. The heap holds dicts and lists of
dict references, indexed by allocation order. -/

/-- A Python value stored in an invoice dict: a string or a number. -/
inductive PyVal where
  | str (s : String)
  | num (q : ℚ)
  deriving DecidableEq

/-- A Python dict as an ordered association list. -/
abbrev PyDict := List (String × PyVal)

/-- Python dict assignment `d[k] = v`: replace in place if the key
exists, else append. -/
def dictSet : PyDict → String → PyVal → PyDict
  | [], k, v => [(k, v)]
  | (k1, v1) :: rest, k, v =>
    if k1 = k then (k, v) :: rest else (k1, v1) :: dictSet rest k v

/-- Python dict lookup `d[k]` (as far as it succeeds). -/
def dictGet : PyDict → String → Option PyVal
  | [], _ => none
  | (k1, v1) :: rest, k => if k1 = k then some v1 else dictGet rest k

/-- The mutable heap of one Python session: allocated dicts, and
allocated lists of dict references. -/
structure PyState where
  dictHeap : List PyDict
  listHeap : List (List Nat)
  deriving DecidableEq

/-- An `InvoiceManager` object: it holds a reference to the Python list
`self.invoices`. -/
structure InvoiceManager where
  invoicesRef : Nat
  deriving DecidableEq

/-- Dereference a dict. -/
def readDict (st : PyState) (r : Nat) : PyDict := st.dictHeap.getD r []

/-- Dereference a list. -/
def readList (st : PyState) (r : Nat) : List Nat := st.listHeap.getD r []

/-- Embeds `InvoiceManager.__init__` (app.py lines 56-57): allocate the
empty list `self.invoices = []`. -/
def newManager (st : PyState) : PyState × InvoiceManager :=
  ({ st with listHeap := st.listHeap ++ [[]] },
   { invoicesRef := st.listHeap.length })

/-- Allocation of a fresh Python dict literal (such as `invoice_data =
{...}` in `main`, app.py lines 137-143). -/
def allocDict (st : PyState) (d : PyDict) : PyState × Nat :=
  ({ st with dictHeap := st.dictHeap ++ [d] }, st.dictHeap.length)

/-- Embeds `InvoiceManager.add_invoice` (app.py lines 59-62): receives
a reference to the caller's dict, writes `invoice_data['invoice_id']`
and `invoice_data['timestamp']` into that very dict, and appends the
same reference to `self.invoices`. `ts` is the formatted
`datetime.now()` string. The Python function has no `return` statement,
so the call evaluates to `None`: the second component of the result. -/
def add_invoice (st : PyState) (m : InvoiceManager) (dref : Nat)
    (ts : String) : PyState × Option Nat :=
  let lst := readList st m.invoicesRef
  let d0 := readDict st dref
  let d1 := dictSet d0 "invoice_id" (.str ("INV-" ++ toString (lst.length + 1)))
  let d2 := dictSet d1 "timestamp" (.str ts)
  ({ dictHeap := st.dictHeap.set dref d2
     listHeap := st.listHeap.set m.invoicesRef (lst ++ [dref]) }, none)

/-- Embeds `InvoiceManager.get_all_invoices` (app.py lines 64-65):
returns `self.invoices` itself — the reference, not a copy. -/
def get_all_invoices (m : InvoiceManager) : Nat := m.invoicesRef

/-- Client-side mutation of a Python list through a reference, such as
`.append(x)` on the object returned by `get_all_invoices`. -/
def listAppendRef (st : PyState) (r : Nat) (x : Nat) : PyState :=
  { st with listHeap := st.listHeap.set r (readList st r ++ [x]) }

/-- Client-side mutation of a Python dict through a reference:
`d[k] = v`. -/
def dictSetRef (st : PyState) (r : Nat) (k : String) (v : PyVal) : PyState :=
  { st with dictHeap := st.dictHeap.set r (dictSet (readDict st r) k v) }

/-- The add-invoice flow of `main` (app.py lines 137-145): build a
fresh dict literal and pass it to `add_invoice`. The `None` return
value is discarded, as in the source. -/
def addFresh (st : PyState) (m : InvoiceManager) (d : PyDict)
    (ts : String) : PyState :=
  let a := allocDict st d
  (add_invoice a.1 m a.2 ts).1

/-- Repeated invoice submission: `addFresh` once per input. -/
def runAdds (st : PyState) (m : InvoiceManager) :
    List (PyDict × String) → PyState
  | [] => st
  | i :: rest => runAdds (addFresh st m i.1 i.2) m rest

/-- The session after `InvoiceManager()` runs on an empty heap
(app.py lines 96-97). -/
def sessionInit : PyState × InvoiceManager := newManager ⟨[], []⟩

/-- The dict stored for the `n`-th invoice: the caller's dict with
`invoice_id = "INV-<n>"` and the timestamp written into it. -/
def storedDict (d : PyDict) (n : Nat) (ts : String) : PyDict :=
  dictSet (dictSet d "invoice_id" (.str ("INV-" ++ toString n))) "timestamp"
    (.str ts)

/-- The dicts stored by a run of submissions starting after `n`
invoices already exist. -/
def storedDicts (n : Nat) : List (PyDict × String) → List PyDict
  | [] => []
  | i :: rest => storedDict i.1 (n + 1) i.2 :: storedDicts (n + 1) rest

/-- The invoice dict literal built by `main` (app.py lines 137-143),
with the caller-supplied field values as parameters. -/
def mkInv (num name date : String) (amt : ℚ) (rate : String) : PyDict :=
  [("invoice_number", .str num), ("customer_name", .str name),
   ("invoice_date", .str date), ("base_amount", .num amt),
   ("gst_rate", .str rate)]

/-- A session in which one invoice dict is allocated and submitted to
`add_invoice`, recording the call's return value (discarded by the
source at app.py line 145). -/
def c6call : PyState × Option Nat :=
  let a := allocDict sessionInit.1 (mkInv "A-1" "Bob" "2024-01-01" 500 "5%")
  add_invoice a.1 sessionInit.2 a.2 "2024-01-01 10:00:00"

/-! ## Definitions: the Reports and Analytics computations of `main`
(app.py lines 159-179) -/

/-- Numeric content of a field value. Records built by `main` (app.py
lines 137-143) always carry a number under `base_amount`, so the
default branch is never exercised on app states. -/
def pyNumD (v : Option PyVal) : ℚ :=
  match v with
  | some (.num q) => q
  | _ => 0

/-- Resolving `get_all_invoices()` into the list of record dicts, as
`pd.DataFrame(...)` does at app.py line 161. -/
def ledgerDicts (st : PyState) (m : InvoiceManager) : List PyDict :=
  (readList st (get_all_invoices m)).map (readDict st)

/-- Embeds `len(df)` (app.py line 168): the invoice count metric. -/
def reportCount (ds : List PyDict) : Nat := ds.length

/-- Embeds `df['base_amount'].sum()` (app.py line 170): the total
base-amount metric. -/
def reportTotal (ds : List PyDict) : ℚ :=
  (ds.map (fun d => pyNumD (dictGet d "base_amount"))).sum

/-- Embeds `df['base_amount'].mean()` (app.py line 173): the average
base-amount metric (sum divided by count). -/
def reportAvg (ds : List PyDict) : ℚ := reportTotal ds / reportCount ds

/-- Embeds `df['gst_rate'].value_counts()` (app.py line 178) at one
label: the number of records whose `gst_rate` equals the label. -/
def rateDist (ds : List PyDict) (label : String) : Nat :=
  ds.countP (fun d => dictGet d "gst_rate" == some (.str label))

/-- The three-invoice scenario ledger: base amounts `a`, `b`, `c` at
rates 5%, 5%, 18%, submitted in sequence on a fresh session, then
resolved for the Reports page. -/
def c8ledger (a b c : ℚ) : List PyDict :=
  ledgerDicts
    (runAdds sessionInit.1 sessionInit.2
      [(mkInv "1" "x" "2024-01-01" a "5%", "t1"),
       (mkInv "2" "y" "2024-01-02" b "5%", "t2"),
       (mkInv "3" "z" "2024-01-03" c "18%", "t3")])
    sessionInit.2

/-! ## Definitions: `get_ai_insights` (app.py lines 67-87) -/

/-- Embeds the `try`/`except` boundary of `get_ai_insights` (app.py
lines 79-87). The external text-generation call
`client.chat.completions.create(...)` is an opaque external
collaborator (spec §1, §6); its outcome is a parameter: `.ok content`
for a successful response (the source then returns
`response.choices[0].message.content`), `.error e` for a raised
exception with message `e` (the source catches every `Exception` and
returns the formatted message string). The function always returns a
string; no exception escapes. -/
def get_ai_insights (callOutcome : Except String String) : String :=
  match callOutcome with
  | .ok content => content
  | .error e => "Error getting AI insights: " ++ e

end Complix

namespace Complix

/-! ## Helper lemmas -/

@[simp]
theorem dictGet_dictSet_self (d : PyDict) (k : String) (v : PyVal) :
    dictGet (dictSet d k v) k = some v := by
  induction d with
  | nil => simp [dictSet, dictGet]
  | cons p rest ih =>
    by_cases h : p.1 = k <;> simp [dictSet, dictGet, h, ih]

@[simp]
theorem dictGet_dictSet_ne (d : PyDict) (k k2 : String) (v : PyVal)
    (h : k ≠ k2) : dictGet (dictSet d k v) k2 = dictGet d k2 := by
  induction d with
  | nil => simp [dictSet, dictGet, h]
  | cons p rest ih =>
    by_cases h1 : p.1 = k <;> by_cases h2 : p.1 = k2 <;>
      simp_all [dictSet, dictGet]

theorem getD_concat {α : Type} (l : List α) (a d : α) :
    (l ++ [a]).getD l.length d = a := by
  induction l with
  | nil => rfl
  | cons x xs ih => simp [ih]

theorem set_concat {α : Type} (l : List α) (a b : α) :
    (l ++ [a]).set l.length b = l ++ [b] := by
  induction l with
  | nil => rfl
  | cons x xs ih => simp [ih]

theorem getD_set_self {α : Type} (l : List α) (i : Nat) (a d : α)
    (h : i < l.length) : (l.set i a).getD i d = a := by
  induction l generalizing i with
  | nil => simp at h
  | cons x xs ih =>
    cases i with
    | zero => rfl
    | succ j => exact ih j (by simpa using h)

theorem storedDicts_length (inputs : List (PyDict × String)) :
    ∀ n, (storedDicts n inputs).length = inputs.length := by
  induction inputs with
  | nil => intro n; rfl
  | cons i rest ih => intro n; simp [storedDicts, ih]

theorem storedDicts_getD (inputs : List (PyDict × String)) :
    ∀ n i, i < inputs.length →
      (storedDicts n inputs).getD i [] =
        storedDict (inputs.getD i ([], "")).1 (n + i + 1)
          (inputs.getD i ([], "")).2 := by
  induction inputs with
  | nil => intro n i h; simp at h
  | cons p rest ih =>
    intro n i h
    cases i with
    | zero => rfl
    | succ j =>
      have hj : j < rest.length := by simpa using h
      have := ih (n + 1) j hj
      simpa [storedDicts, Nat.add_assoc, Nat.add_comm 1 j] using this

/-- Characterization of a run of invoice submissions: starting from a
heap holding `n` stored dicts all referenced (in allocation order) by
the manager's single list, the run appends the processed dicts and the
new references in order. -/
theorem runAdds_spec (inputs : List (PyDict × String)) :
    ∀ (n : Nat) (ds : List PyDict), ds.length = n →
      runAdds ⟨ds, [List.range n]⟩ ⟨0⟩ inputs =
        ⟨ds ++ storedDicts n inputs, [List.range (n + inputs.length)]⟩ := by
  induction inputs with
  | nil =>
    intro n ds hlen
    simp [runAdds, storedDicts]
  | cons i rest ih =>
    intro n ds hlen
    subst hlen
    have hread : readList ⟨ds ++ [i.1], [List.range ds.length]⟩ 0 =
        List.range ds.length := rfl
    have hdict : readDict ⟨ds ++ [i.1], [List.range ds.length]⟩ ds.length = i.1 := by
      simp [readDict, getD_concat]
    have hstep :
        addFresh ⟨ds, [List.range ds.length]⟩ ⟨0⟩ i.1 i.2 =
          ⟨ds ++ [storedDict i.1 (ds.length + 1) i.2],
           [List.range (ds.length + 1)]⟩ := by
      simp only [addFresh, allocDict, add_invoice, hread, hdict, List.length_range]
      rw [set_concat]
      simp [storedDict, List.range_succ]
    rw [runAdds, hstep,
      ih (ds.length + 1) (ds ++ [storedDict i.1 (ds.length + 1) i.2]) (by simp)]
    simp [storedDicts, Nat.add_assoc, Nat.add_comm 1 rest.length]

end Complix

/-! ## Claim C1 -/

open Complix in
/-- C1: for every non-negative base amount and every rate label in the
enumerated set {0%, 5%, 12%, 18%, 28%} (with percentage `pct`), the tax
calculation succeeds and returns `gst_amount = base * pct / 100` and
`total_amount = base + gst_amount`. -/
theorem C1_calculate_gst_formula (base : ℚ) (h : 0 ≤ base)
    (lbl : String) (pct : ℚ) (hmem : (lbl, pct) ∈ ratePercents) :
    calculate_gst base lbl =
      some { base_amount := base
             gst_amount := base * pct / 100
             total_amount := base + base * pct / 100 } := by
  have hlook : gst_rates.lookup lbl = some (pct / 100) := by
    fin_cases hmem <;> simp [gst_rates, List.lookup] <;> norm_num
  simp [calculate_gst, hlook]
  ring

open Complix in
/-- Witness for C1 at base amount 1000 and rate label "18%". -/
theorem C1_calculate_gst_formula_witness :
    calculate_gst 1000 "18%" =
      some { base_amount := 1000
             gst_amount := 1000 * 18 / 100
             total_amount := 1000 + 1000 * 18 / 100 } :=
  C1_calculate_gst_formula 1000 (by norm_num) "18%" 18 (by decide)

/-! ## Claim C4 -/

open Complix in
/-- Counterexample to C4: `calculate_gst` does not fail on the negative
base amount −1 with a valid rate; it returns a result dictionary (with
a negative GST amount) instead of an `InvalidAmount` failure, because
the code never inspects the sign of `base_amount`. -/
theorem C4_counterexample_negative_amount_accepted :
    calculate_gst (-1) "18%" =
      some { base_amount := -1
             gst_amount := -9 / 50
             total_amount := -59 / 50 } := by
  have hlook : gst_rates.lookup "18%" = some 0.18 := by
    simp [gst_rates, List.lookup]
  simp [calculate_gst, hlook]
  norm_num

open Complix in
/-- C4 amended: the tax calculation fails (an uncaught `KeyError` from
the rate-table lookup, the code's only failure mode) for every rate
label outside the enumerated set, in particular for rate 7; but it
does NOT fail for negative base amounts: `calculate_gst (-1) "18%"`
returns a result computed by the usual formula. -/
theorem C4_invalid_rate_fails_negative_amount_accepted :
    (∀ base : ℚ, calculate_gst base "7%" = none) ∧
    (∀ (base : ℚ) (rate : String),
        gst_rates.lookup rate = none → calculate_gst base rate = none) ∧
    calculate_gst (-1) "18%" =
      some { base_amount := -1
             gst_amount := -9 / 50
             total_amount := -59 / 50 } := by
  refine ⟨fun base => ?_, fun base rate h => ?_, ?_⟩
  · simp [calculate_gst, gst_rates, List.lookup]
  · simp [calculate_gst, h]
  · have hlook : gst_rates.lookup "18%" = some 0.18 := by
      simp [gst_rates, List.lookup]
    simp [calculate_gst, hlook]
    norm_num

open Complix in
/-- Witness for C4 (amended) at base amount 1 and the out-of-set rate
label "7%". -/
theorem C4_invalid_rate_witness :
    gst_rates.lookup "7%" = none ∧ calculate_gst 1 "7%" = none :=
  ⟨by decide, C4_invalid_rate_fails_negative_amount_accepted.2.1 1 "7%" (by decide)⟩

/-! ## Claim C3 -/

open Complix in
/-- C3: calling `add_invoice` N times in sequence on a fresh ledger
(each time with a freshly built input dict, as `main` does) assigns the
identifiers "INV-1" through "INV-N" in order: `get_all_invoices`
afterwards yields the N records in insertion order (the references in
allocation order, reference `i` being the dict submitted `i`-th), and
the record stored `i`-th carries `invoice_id = "INV-<i+1>"`. -/
theorem C3_sequential_ids (inputs : List (PyDict × String)) :
    readList (runAdds sessionInit.1 sessionInit.2 inputs)
        (get_all_invoices sessionInit.2) = List.range inputs.length ∧
    (readList (runAdds sessionInit.1 sessionInit.2 inputs)
        (get_all_invoices sessionInit.2)).length = inputs.length ∧
    (∀ i, i < inputs.length →
      dictGet
        (readDict (runAdds sessionInit.1 sessionInit.2 inputs)
          ((readList (runAdds sessionInit.1 sessionInit.2 inputs)
            (get_all_invoices sessionInit.2)).getD i 0))
        "invoice_id" = some (.str ("INV-" ++ toString (i + 1)))) := by
  have hrun := runAdds_spec inputs 0 [] rfl
  have hsession : sessionInit = (⟨[], [[]]⟩, ⟨0⟩) := rfl
  have hstate : runAdds sessionInit.1 sessionInit.2 inputs =
      ⟨storedDicts 0 inputs, [List.range inputs.length]⟩ := by
    rw [hsession]
    simpa using hrun
  have hreflist : readList (runAdds sessionInit.1 sessionInit.2 inputs)
      (get_all_invoices sessionInit.2) = List.range inputs.length := by
    rw [hstate]; rfl
  refine ⟨hreflist, by simp [hreflist], fun i hi => ?_⟩
  have hgetref : (List.range inputs.length).getD i 0 = i := by
    simp [List.getD, hi]
  rw [hreflist, hgetref, hstate]
  have hdict : readDict (⟨storedDicts 0 inputs, [List.range inputs.length]⟩ : PyState) i
      = storedDict (inputs.getD i ([], "")).1 (i + 1) (inputs.getD i ([], "")).2 := by
    have := storedDicts_getD inputs 0 i hi
    simpa [readDict] using this
  rw [hdict, storedDict]
  rw [dictGet_dictSet_ne _ _ _ _ (by decide), dictGet_dictSet_self]

open Complix in
/-- Witness for C3 on a concrete two-invoice run. -/
theorem C3_sequential_ids_witness :
    dictGet
      (readDict
        (runAdds sessionInit.1 sessionInit.2
          [([("base_amount", .num 100)], "t1"), ([("base_amount", .num 200)], "t2")])
        ((readList
            (runAdds sessionInit.1 sessionInit.2
              [([("base_amount", .num 100)], "t1"), ([("base_amount", .num 200)], "t2")])
            (get_all_invoices sessionInit.2)).getD 1 0))
      "invoice_id" = some (.str "INV-2") :=
  (C3_sequential_ids
    [([("base_amount", .num 100)], "t1"), ([("base_amount", .num 200)], "t2")]).2.2
    1 (by decide)

/-! ## Claim C2 -/

open Complix in
/-- Counterexample to C2: after the very submission the claim
describes — `add` of a fresh invoice dict with base amount 1000 and
rate "18%" on an empty ledger — the stored record contains NO derived
GST fields at all: neither a `gst_amount` nor a `total_amount` key is
present (the claim says the stored record has `gstAmount = 180.00` and
`totalAmount = 1180.00`). `add_invoice` stores the caller's dict after
adding only `invoice_id` and `timestamp`; it never invokes the
calculator. -/
theorem C2_counterexample_no_derived_fields :
    dictGet
      (readDict
        (addFresh sessionInit.1 sessionInit.2
          (mkInv "A-1" "Bob" "2024-01-01" 1000 "18%") "2024-01-01 10:00:00") 0)
      "gst_amount" = none ∧
    dictGet
      (readDict
        (addFresh sessionInit.1 sessionInit.2
          (mkInv "A-1" "Bob" "2024-01-01" 1000 "18%") "2024-01-01 10:00:00") 0)
      "total_amount" = none := by
  decide

open Complix in
/-- C2 amended: the record stored by ledger add consists of exactly the
caller-supplied fields plus `invoice_id` and `timestamp`; no derived
`gst_amount`/`total_amount` field is stored. After
`add({baseAmount:1000, gstRate:"18%"})` on an empty ledger the stored
record has `invoice_id = "INV-1"` and carries base amount 1000 and rate
"18%" unchanged; the derived amounts 180.00 and 1180.00 arise only when
the separate calculator is invoked on those values. -/
theorem C2_amended_stored_record :
    readDict
        (addFresh sessionInit.1 sessionInit.2
          (mkInv "A-1" "Bob" "2024-01-01" 1000 "18%") "2024-01-01 10:00:00") 0 =
      storedDict (mkInv "A-1" "Bob" "2024-01-01" 1000 "18%") 1
        "2024-01-01 10:00:00" ∧
    dictGet
        (readDict
          (addFresh sessionInit.1 sessionInit.2
            (mkInv "A-1" "Bob" "2024-01-01" 1000 "18%") "2024-01-01 10:00:00") 0)
        "invoice_id" = some (.str "INV-1") ∧
    dictGet
        (readDict
          (addFresh sessionInit.1 sessionInit.2
            (mkInv "A-1" "Bob" "2024-01-01" 1000 "18%") "2024-01-01 10:00:00") 0)
        "base_amount" = some (.num 1000) ∧
    calculate_gst 1000 "18%" =
      some { base_amount := 1000, gst_amount := 180, total_amount := 1180 } := by
  refine ⟨by decide, by decide, by decide, ?_⟩
  have hlook : gst_rates.lookup "18%" = some 0.18 := by
    simp [gst_rates, List.lookup]
  simp [calculate_gst, hlook]
  norm_num

/-! ## Claim C5 -/

open Complix in
/-- Counterexample to C5: submitting an invalid input (negative base
amount −1 and out-of-set rate "7%") does not fail and does not leave
the ledger unchanged — the record is stored and the ledger grows, since
`add_invoice` performs no validation and never consults the tax
engine. -/
theorem C5_counterexample_invalid_input_stored :
    ((-1 : ℚ) < 0) ∧
    gst_rates.lookup "7%" = none ∧
    readList
        (addFresh sessionInit.1 sessionInit.2
          (mkInv "B-1" "Eve" "2024-01-02" (-1) "7%") "t")
        (get_all_invoices sessionInit.2) ≠
      readList sessionInit.1 (get_all_invoices sessionInit.2) := by
  refine ⟨by norm_num, by decide, by decide⟩

open Complix in
/-- C5 amended: ledger add performs NO input validation and never
fails; every input dict — whatever its base amount or rate — is
assigned an id and timestamp and appended to the ledger, which grows by
exactly that record. -/
theorem C5_no_validation_always_stores (st : PyState) (m : InvoiceManager)
    (d : PyDict) (ts : String) (h : m.invoicesRef < st.listHeap.length) :
    readList (addFresh st m d ts) m.invoicesRef =
      readList st m.invoicesRef ++ [st.dictHeap.length] ∧
    readDict (addFresh st m d ts) st.dictHeap.length =
      storedDict d ((readList st m.invoicesRef).length + 1) ts := by
  have hd0 : readDict ⟨st.dictHeap ++ [d], st.listHeap⟩ st.dictHeap.length = d := by
    simp [readDict, getD_concat]
  have hlst : readList ⟨st.dictHeap ++ [d], st.listHeap⟩ m.invoicesRef =
      readList st m.invoicesRef := rfl
  constructor
  · simp only [addFresh, allocDict, add_invoice, hlst, hd0, readList]
    exact getD_set_self _ _ _ _ h
  · simp only [addFresh, allocDict, add_invoice, hlst, hd0, readDict]
    rw [set_concat, getD_concat, getD_concat]
    rfl

open Complix in
/-- Witness for C5 (amended) on a concrete invalid input: base amount
−1 and rate "7%" on a fresh ledger. -/
theorem C5_no_validation_witness :
    readList
        (addFresh sessionInit.1 sessionInit.2
          (mkInv "B-1" "Eve" "2024-01-02" (-1) "7%") "t") 0 =
      readList sessionInit.1 0 ++ [sessionInit.1.dictHeap.length] ∧
    readDict
        (addFresh sessionInit.1 sessionInit.2
          (mkInv "B-1" "Eve" "2024-01-02" (-1) "7%") "t")
        sessionInit.1.dictHeap.length =
      storedDict (mkInv "B-1" "Eve" "2024-01-02" (-1) "7%")
        ((readList sessionInit.1 0).length + 1) "t" :=
  C5_no_validation_always_stores sessionInit.1 sessionInit.2
    (mkInv "B-1" "Eve" "2024-01-02" (-1) "7%") "t" (by decide)

/-! ## Claim C6 -/

open Complix in
/-- Counterexample to C6: on a valid input, `add_invoice` stores the
record (reference 0 is appended to the ledger) but the call returns
`None`, not the stored record. -/
theorem C6_counterexample_returns_none :
    c6call.2 = none ∧
    c6call.2 ≠ some 0 ∧
    readList c6call.1 (get_all_invoices sessionInit.2) = [0] := by
  refine ⟨by decide, by decide, by decide⟩

open Complix in
/-- C6 amended: for every input, `add_invoice` appends the record (the
caller's dict reference) to the ledger but returns `None`; the stored
record is reachable only through the ledger or the caller's own
reference. -/
theorem C6_add_appends_but_returns_none (st : PyState)
    (m : InvoiceManager) (dref : Nat) (ts : String)
    (h : m.invoicesRef < st.listHeap.length) :
    (add_invoice st m dref ts).2 = none ∧
    readList (add_invoice st m dref ts).1 m.invoicesRef =
      readList st m.invoicesRef ++ [dref] := by
  refine ⟨rfl, ?_⟩
  simp only [add_invoice, readList]
  exact getD_set_self _ _ _ _ h

open Complix in
/-- Witness for C6 (amended) on a concrete call. -/
theorem C6_add_appends_witness :
    (add_invoice sessionInit.1 sessionInit.2 0 "t").2 = none ∧
    readList (add_invoice sessionInit.1 sessionInit.2 0 "t").1 0 =
      readList sessionInit.1 0 ++ [0] :=
  C6_add_appends_but_returns_none sessionInit.1 sessionInit.2 0 "t" (by decide)

/-! ## Claim C7 -/

open Complix in
/-- Counterexample to C7: on the fresh-session ledger state, appending
an element to the sequence returned by `get_all_invoices` changes the
result of the subsequent `get_all_invoices` read, because the method
returns the internal list itself, not a snapshot. -/
theorem C7_counterexample_not_a_snapshot :
    readList
        (listAppendRef sessionInit.1 (get_all_invoices sessionInit.2) 7)
        (get_all_invoices sessionInit.2) ≠
      readList sessionInit.1 (get_all_invoices sessionInit.2) := by
  decide

open Complix in
/-- C7 amended: `get_all_invoices` returns the ledger's internal list
itself — the same reference as `self.invoices` — so a mutation
performed through the returned sequence is a mutation of the ledger,
and every subsequent `get_all_invoices` call observes it. -/
theorem C7_returns_alias (st : PyState) (m : InvoiceManager) (x : Nat)
    (h : m.invoicesRef < st.listHeap.length) :
    get_all_invoices m = m.invoicesRef ∧
    readList (listAppendRef st (get_all_invoices m) x)
        (get_all_invoices m) =
      readList st (get_all_invoices m) ++ [x] := by
  refine ⟨rfl, ?_⟩
  simp only [listAppendRef, get_all_invoices, readList]
  exact getD_set_self _ _ _ _ h

open Complix in
/-- Witness for C7 (amended) on the fresh-session state. -/
theorem C7_returns_alias_witness :
    get_all_invoices sessionInit.2 = 0 ∧
    readList
        (listAppendRef sessionInit.1 (get_all_invoices sessionInit.2) 7)
        (get_all_invoices sessionInit.2) =
      readList sessionInit.1 (get_all_invoices sessionInit.2) ++ [7] :=
  C7_returns_alias sessionInit.1 sessionInit.2 7 (by decide)

/-! ## Claim C10 -/

open Complix in
/-- C10: `add_invoice` writes `invoice_id` and `timestamp` into the
very dict the caller passed (no copy is made), and the reference it
appends to the ledger is that same dict, so a later mutation through
the caller's reference is a mutation of the stored record. -/
theorem C10_caller_dict_aliased (st : PyState) (m : InvoiceManager)
    (dref : Nat) (ts : String) (h1 : m.invoicesRef < st.listHeap.length)
    (h2 : dref < st.dictHeap.length) :
    dictGet (readDict (add_invoice st m dref ts).1 dref) "invoice_id" =
      some (.str ("INV-" ++ toString ((readList st m.invoicesRef).length + 1))) ∧
    dictGet (readDict (add_invoice st m dref ts).1 dref) "timestamp" =
      some (.str ts) ∧
    (readList (add_invoice st m dref ts).1 m.invoicesRef).getLast? =
      some dref ∧
    readDict (add_invoice st m dref ts).1 dref =
      storedDict (readDict st dref) ((readList st m.invoicesRef).length + 1) ts := by
  have hread : readDict (add_invoice st m dref ts).1 dref =
      storedDict (readDict st dref) ((readList st m.invoicesRef).length + 1) ts := by
    simp only [add_invoice, readDict, storedDict]
    exact getD_set_self _ _ _ _ h2
  have hlist : readList (add_invoice st m dref ts).1 m.invoicesRef =
      readList st m.invoicesRef ++ [dref] := by
    simp only [add_invoice, readList]
    exact getD_set_self _ _ _ _ h1
  refine ⟨?_, ?_, ?_, hread⟩
  · rw [hread, storedDict, dictGet_dictSet_ne _ _ _ _ (by decide),
      dictGet_dictSet_self]
  · rw [hread, storedDict, dictGet_dictSet_self]
  · rw [hlist]
    simp

open Complix in
/-- Witness for C10 on a concrete session with one allocated invoice
dict. -/
theorem C10_caller_dict_aliased_witness :
    dictGet
        (readDict
          (add_invoice
            (allocDict sessionInit.1 (mkInv "A-1" "Bob" "2024-01-01" 1000 "18%")).1
            sessionInit.2 0 "t").1 0)
        "invoice_id" = some (.str "INV-1") ∧
    dictGet
        (readDict
          (add_invoice
            (allocDict sessionInit.1 (mkInv "A-1" "Bob" "2024-01-01" 1000 "18%")).1
            sessionInit.2 0 "t").1 0)
        "timestamp" = some (.str "t") :=
  ⟨(C10_caller_dict_aliased
      (allocDict sessionInit.1 (mkInv "A-1" "Bob" "2024-01-01" 1000 "18%")).1
      sessionInit.2 0 "t" (by decide) (by decide)).1,
   (C10_caller_dict_aliased
      (allocDict sessionInit.1 (mkInv "A-1" "Bob" "2024-01-01" 1000 "18%")).1
      sessionInit.2 0 "t" (by decide) (by decide)).2.1⟩

/-! ## Claim C9 -/

open Complix in
/-- C9: whenever the external text-generation call fails — whatever the
exception message — `get_ai_insights` returns the formatted error
message as an ordinary string to its caller; the function is total on
every call outcome (it returns a `String` for the success case and for
every failure case alike), so no exception propagates. -/
theorem C9_insights_error_caught :
    (∀ e : String,
      get_ai_insights (Except.error e) = "Error getting AI insights: " ++ e) ∧
    (∀ content : String,
      get_ai_insights (Except.ok content) = content) := by
  exact ⟨fun e => rfl, fun content => rfl⟩

/-! ## Claim C8 -/

open Complix in
/-- C8: for every non-empty ledger the Reports page computes the count
as the number of stored records, the total as the sum of their base
amounts, the average as that sum divided by the count, and the rate
distribution as the number of records at each rate label; and on the
concrete three-invoice scenario (base amounts `a`, `b`, `c` at rates
5%, 5%, 18% submitted through the ledger) the report shows count 3,
total `a + b + c`, average `(a + b + c) / 3`, and distribution
{"5%" ↦ 2, "18%" ↦ 1}. -/
theorem C8_summary_report :
    (∀ ds : List PyDict, ds ≠ [] →
      reportCount ds = ds.length ∧
      reportTotal ds = (ds.map (fun d => pyNumD (dictGet d "base_amount"))).sum ∧
      reportAvg ds = reportTotal ds / ds.length ∧
      ∀ lbl, rateDist ds lbl =
        (ds.filter (fun d => dictGet d "gst_rate" == some (.str lbl))).length) ∧
    (∀ a b c : ℚ,
      reportCount (c8ledger a b c) = 3 ∧
      reportTotal (c8ledger a b c) = a + b + c ∧
      reportAvg (c8ledger a b c) = (a + b + c) / 3 ∧
      rateDist (c8ledger a b c) "5%" = 2 ∧
      rateDist (c8ledger a b c) "18%" = 1) := by
  constructor
  · intro ds hne
    exact ⟨rfl, rfl, rfl, fun lbl => List.countP_eq_length_filter _ _⟩
  · intro a b c
    have hrun := runAdds_spec
      [(mkInv "1" "x" "2024-01-01" a "5%", "t1"),
       (mkInv "2" "y" "2024-01-02" b "5%", "t2"),
       (mkInv "3" "z" "2024-01-03" c "18%", "t3")] 0 [] rfl
    have hds : c8ledger a b c =
        [storedDict (mkInv "1" "x" "2024-01-01" a "5%") 1 "t1",
         storedDict (mkInv "2" "y" "2024-01-02" b "5%") 2 "t2",
         storedDict (mkInv "3" "z" "2024-01-03" c "18%") 3 "t3"] := by
      have hstate :
          runAdds ⟨[], [[]]⟩ ⟨0⟩
            [(mkInv "1" "x" "2024-01-01" a "5%", "t1"),
             (mkInv "2" "y" "2024-01-02" b "5%", "t2"),
             (mkInv "3" "z" "2024-01-03" c "18%", "t3")] =
          ⟨storedDicts 0
            [(mkInv "1" "x" "2024-01-01" a "5%", "t1"),
             (mkInv "2" "y" "2024-01-02" b "5%", "t2"),
             (mkInv "3" "z" "2024-01-03" c "18%", "t3")],
           [List.range 3]⟩ := by
        simpa using hrun
      have hsession1 : sessionInit.1 = (⟨[], [[]]⟩ : PyState) := rfl
      have hsession2 : sessionInit.2 = (⟨0⟩ : InvoiceManager) := rfl
      have hr3 : List.range 3 = [0, 1, 2] := rfl
      simp [c8ledger, ledgerDicts, get_all_invoices, hsession1, hsession2,
        hstate, hr3, readList, readDict, storedDicts, List.getD]
    have hbase1 : dictGet (storedDict (mkInv "1" "x" "2024-01-01" a "5%") 1 "t1")
        "base_amount" = some (.num a) := by
      rw [storedDict, dictGet_dictSet_ne _ _ _ _ (by decide),
        dictGet_dictSet_ne _ _ _ _ (by decide)]
      simp [mkInv, dictGet]
    have hbase2 : dictGet (storedDict (mkInv "2" "y" "2024-01-02" b "5%") 2 "t2")
        "base_amount" = some (.num b) := by
      rw [storedDict, dictGet_dictSet_ne _ _ _ _ (by decide),
        dictGet_dictSet_ne _ _ _ _ (by decide)]
      simp [mkInv, dictGet]
    have hbase3 : dictGet (storedDict (mkInv "3" "z" "2024-01-03" c "18%") 3 "t3")
        "base_amount" = some (.num c) := by
      rw [storedDict, dictGet_dictSet_ne _ _ _ _ (by decide),
        dictGet_dictSet_ne _ _ _ _ (by decide)]
      simp [mkInv, dictGet]
    have hrate1 : dictGet (storedDict (mkInv "1" "x" "2024-01-01" a "5%") 1 "t1")
        "gst_rate" = some (.str "5%") := by
      rw [storedDict, dictGet_dictSet_ne _ _ _ _ (by decide),
        dictGet_dictSet_ne _ _ _ _ (by decide)]
      simp [mkInv, dictGet]
    have hrate2 : dictGet (storedDict (mkInv "2" "y" "2024-01-02" b "5%") 2 "t2")
        "gst_rate" = some (.str "5%") := by
      rw [storedDict, dictGet_dictSet_ne _ _ _ _ (by decide),
        dictGet_dictSet_ne _ _ _ _ (by decide)]
      simp [mkInv, dictGet]
    have hrate3 : dictGet (storedDict (mkInv "3" "z" "2024-01-03" c "18%") 3 "t3")
        "gst_rate" = some (.str "18%") := by
      rw [storedDict, dictGet_dictSet_ne _ _ _ _ (by decide),
        dictGet_dictSet_ne _ _ _ _ (by decide)]
      simp [mkInv, dictGet]
    have htotal : reportTotal (c8ledger a b c) = a + b + c := by
      simp [reportTotal, hds, hbase1, hbase2, hbase3, pyNumD]
      ring
    refine ⟨by simp [reportCount, hds], htotal, ?_, ?_, ?_⟩
    · rw [reportAvg, htotal]
      norm_num [reportCount, hds]
    · simp [rateDist, hds, hrate1, hrate2, hrate3]
    · simp [rateDist, hds, hrate1, hrate2, hrate3]

open Complix in
/-- Witness for C8 on a concrete one-record ledger and on the concrete
three-invoice scenario with base amounts 100, 200, 300. -/
theorem C8_summary_report_witness :
    rateDist [[("gst_rate", PyVal.str "5%")]] "5%" =
      (List.filter (fun d => dictGet d "gst_rate" == some (.str "5%"))
        [[("gst_rate", PyVal.str "5%")]]).length ∧
    reportCount (c8ledger 100 200 300) = 3 :=
  ⟨(C8_summary_report.1 [[("gst_rate", PyVal.str "5%")]] (by decide)).2.2.2 "5%",
   (C8_summary_report.2 100 200 300).1⟩
